import Mathlib

/-!
Verification of the Foreman external inventory script (theforeman.py).

The script is a small Python program: a `ForemanInventory` class whose
constructor reads settings from an ini file, builds a Foreman API client, and
then either describes one host (`get_host_info`), or lists the whole fleet
grouped by hostgroup (`get_inventory`).  Foreign keys (operating system,
hostgroup, domain, ...) are resolved through a per-process memoization cache
(`_get_object_from_id`).

This file gives a shallow embedding of the script in Lean.  Python values that
flow through the script are modelled by `PyVal`; Python exceptions by `PyError`
(a raising operation returns `Except PyError _`).  The mutable instance state
(the `_cache` dictionary) is threaded explicitly through `IState`, which also
carries a ghost log `calls` recording every invocation of the adapter's `show`
operation, so that call-counting properties can be stated.  The remote API
client is a parameter: `ShowFn` for the `show_{type}s` family of methods, and a
`Nat → List PyVal` page function for `index_hosts`.
-/

namespace Foreman

/-- Model of the Python values handled by the script: `None`, strings,
integers, and dictionaries with string keys, encoded as finite key-value
chains (`pydnil` / `pydcons`). -/
inductive PyVal where
  | pynone : PyVal
  | pystr (s : String) : PyVal
  | pyint (n : Int) : PyVal
  | pydnil : PyVal
  | pydcons (k : String) (v : PyVal) (rest : PyVal) : PyVal
  deriving DecidableEq, Repr

/-- Model of the Python exceptions the script can raise: `AttributeError`
(attribute access on an object lacking it, e.g. `.get` on `None`),
`UnboundLocalError` (a local variable referenced before assignment), and
`ConfigParser.NoOptionError` (a missing key in the ini file). -/
inductive PyError where
  | attributeError (msg : String) : PyError
  | unboundLocalError (msg : String) : PyError
  | noOptionError (msg : String) : PyError
  deriving DecidableEq, Repr

/-- Model of Python `x.get(key)` for one-argument `get`: on a dictionary it
returns the stored value, or `None` when the key is absent; on any
non-dictionary value (in particular `None`) it raises `AttributeError`. -/
def pyGet : PyVal → String → Except PyError PyVal
  | PyVal.pydnil, _ => .ok PyVal.pynone
  | PyVal.pydcons k v rest, key => if key = k then .ok v else pyGet rest key
  | _, _ => .error (.attributeError "get")

/-- Model of Python `str.lower` on a string value; on any non-string value the
attribute access raises `AttributeError`. -/
def pyLower : PyVal → Except PyError PyVal
  | PyVal.pystr s => .ok (PyVal.pystr (String.mk (s.data.map Char.toLower)))
  | _ => .error (.attributeError "lower")

/-- Python dictionary lookup on an association list (`d.get(k)` /
`d.get(k, default)` via `Option`): the first entry with an equal key wins. -/
def dictGet {α β : Type} [DecidableEq α] : List (α × β) → α → Option β
  | [], _ => none
  | (k', v) :: rest, k => if k = k' then some v else dictGet rest k

/-- Python dictionary assignment `d[k] = v` on an association list: replaces
the value of an existing key in place, otherwise appends the new entry. -/
def dictSet {α β : Type} [DecidableEq α] : List (α × β) → α → β → List (α × β)
  | [], k, v => [(k, v)]
  | (k', v') :: rest, k, v =>
      if k = k' then (k, v) :: rest else (k', v') :: dictSet rest k v

/-- The reference-type names pre-initialized in the cache, source lines 90. -/
def cacheTypeKeys : List String :=
  ["operatingsystem", "hostgroup", "environment", "model", "compute_resource",
   "domain", "subnet", "architecture", "host"]

/-- One memoization bucket: Python inner dict from object ID to stored
response.  IDs are `PyVal` (the script passes integers from API records and
the command-line host string through unchanged). -/
abbrev Bucket := List (PyVal × PyVal)

/-- Source method `ForemanInventory._empty_cache`, lines 88-94: a dict mapping each
of the nine reference-type names to an empty inner dict. -/
def «_empty_cache» : List (String × Bucket) :=
  cacheTypeKeys.map (fun k => (k, ([] : Bucket)))

/-- Source method `ForemanInventory._empty_inventory`, lines 84-86: the value
`{_meta: {hostvars: {}}}` assigned to `self.inventory` in the constructor
(and never used afterwards by the script). -/
def «_empty_inventory» : PyVal :=
  PyVal.pydcons "_meta" (PyVal.pydcons "hostvars" PyVal.pydnil PyVal.pydnil) PyVal.pydnil

/-- The mutable instance state relevant to reference resolution: the `_cache`
dictionary, plus a ghost log `calls` of every `(type, id)` pair for which the
adapter's `show_{type}s` operation was invoked (used to state the
at-most-one-fetch property; it does not influence control flow). -/
structure IState where
  cache : List (String × Bucket)
  calls : List (String × PyVal)
  deriving DecidableEq, Repr

/-- The state of a freshly constructed `ForemanInventory`: empty buckets for
the nine reference types, no adapter calls made yet. -/
def initState : IState := { cache := «_empty_cache», calls := [] }

/-- The adapter's `show_{type}s` operation family: given the reference-type
name and the object ID, returns the full response envelope.  Per the spec
(section 4.2) the adapter returns the full record for the reference, so the
model makes it a total function into `PyVal`. -/
abbrev ShowFn := String → PyVal → PyVal

/-- Source method `ForemanInventory._get_object_from_id`, lines 218-231.
If `obj_id` is `None`, returns `None` with no call.  Otherwise looks up
`self._cache.get(obj_type)`: when the type name has no bucket this yields
`None` and the subsequent `.get(obj_id, None)` raises `AttributeError`.
On a bucket hit (`obj is not None`) it returns `obj.get(obj_type)` from the
cached envelope; on a miss it calls `show_{obj_type}s(obj_id)`, stores the
full envelope under `(obj_type, obj_id)`, logs the call, and returns
`fetched.get(obj_type)`. -/
def «_get_object_from_id» (showObj : ShowFn) (st : IState) (obj_type : String)
    (obj_id : PyVal) : Except PyError PyVal × IState :=
  if obj_id = PyVal.pynone then (.ok PyVal.pynone, st)
  else
    match dictGet st.cache obj_type with
    | none => (.error (.attributeError "get"), st)
    | some bucket =>
      let obj := (dictGet bucket obj_id).getD PyVal.pynone
      if obj = PyVal.pynone then
        let fetched := showObj obj_type obj_id
        (pyGet fetched obj_type,
          { cache := dictSet st.cache obj_type (dictSet bucket obj_id fetched),
            calls := st.calls ++ [(obj_type, obj_id)] })
      else (pyGet obj obj_type, st)

/-- Convenience read of the cache contents: the envelope stored under
`(obj_type, obj_id)`, if any. -/
def cacheLookup (st : IState) (obj_type : String) (obj_id : PyVal) : Option PyVal :=
  (dictGet st.cache obj_type).bind (fun bucket => dictGet bucket obj_id)

/-- Source method `ForemanInventory._get_from_id`, lines 201-216.  Its first
statement, line 204, is `param = self._get_object_from_id(param, param_id)`:
the local `param` is referenced before assignment while evaluating the
arguments, so the function unconditionally raises `UnboundLocalError` for
every input, before reading `param_id` or touching the cache or the adapter
(lines 205-216, including the `label`, operating-system and lowercasing
branches, are unreachable; the operating-system branch would additionally
reference the undefined name `os_obj`).  Since it neither reads nor writes
the instance state, it is modelled without the state parameter. -/
def «_get_from_id» (param_name : String) (param_id : PyVal) : Except PyError PyVal :=
  .error (.unboundLocalError "param")

/-- The environment entry of the record built by `get_host_info`, source
line 143: `meta.get('environment').get('environment').get('name').lower()`. -/
def envField (meta : PyVal) : Except PyError PyVal := do
  let e1 ← pyGet meta "environment"
  let e2 ← pyGet e1 "environment"
  let n ← pyGet e2 "name"
  pyLower n

/-- The `host_desc` dictionary literal of `get_host_info`, source lines
139-156, with entries evaluated in source order; each foreign-key field is
`self._get_from_id(type, meta.get(type_id))`.  Because `_get_from_id` raises
unconditionally without touching the instance state, this expression never
completes and needs no state parameter. -/
def hostDesc (meta : PyVal) : Except PyError PyVal := do
  let idv ← pyGet meta "id"
  let ipv ← pyGet meta "ip"
  let namev ← pyGet meta "name"
  let envv ← envField meta
  let osid ← pyGet meta "operatingsystem_id"
  let osv ← «_get_from_id» "operatingsystem" osid
  let modelid ← pyGet meta "model_id"
  let modelv ← «_get_from_id» "model" modelid
  let crid ← pyGet meta "compute_resource_id"
  let crv ← «_get_from_id» "compute_resource" crid
  let domid ← pyGet meta "domain_id"
  let domv ← «_get_from_id» "domain" domid
  let subid ← pyGet meta "subnet_id"
  let subv ← «_get_from_id» "subnet" subid
  let archid ← pyGet meta "architecture_id"
  let archv ← «_get_from_id» "architecture" archid
  let createdv ← pyGet meta "created_at"
  let updatedv ← pyGet meta "updated_at"
  let statusv ← pyGet meta "status"
  let hgid ← pyGet meta "hostgroup_id"
  let hgv ← «_get_from_id» "hostgroup" hgid
  let sshv ← pyGet meta "ip"
  return PyVal.pydcons "id" idv (PyVal.pydcons "ip" ipv (PyVal.pydcons "name" namev
    (PyVal.pydcons "environment" envv (PyVal.pydcons "os" osv (PyVal.pydcons "model" modelv
    (PyVal.pydcons "compute_resource" crv (PyVal.pydcons "domain" domv
    (PyVal.pydcons "subnet" subv (PyVal.pydcons "architecture" archv
    (PyVal.pydcons "created" createdv (PyVal.pydcons "updated" updatedv
    (PyVal.pydcons "status" statusv (PyVal.pydcons "hostgroup" hgv
    (PyVal.pydcons "ansible_ssh_host" sshv PyVal.pydnil))))))))))))))

/-- Source method `ForemanInventory.get_host_info`, lines 131-158: resolves the host
through the reference cache; if the resolution yields `None`, returns the
empty `host_desc` dictionary; otherwise builds the attribute record (which in
fact always raises inside `_get_from_id`).  Errors from the resolution
propagate. -/
def get_host_info (showObj : ShowFn) (st : IState) (host_id : PyVal) :
    Except PyError PyVal × IState :=
  let r := «_get_object_from_id» showObj st "host" host_id
  match r.1 with
  | .error e => (.error e, r.2)
  | .ok meta =>
      if meta = PyVal.pynone then (.ok PyVal.pydnil, r.2)
      else (hostDesc meta, r.2)

/-- The host-mode tail of `ForemanInventory.__init__`, source lines 122-129:
`data_to_print = self.get_host_info(self.args.host)` followed by printing the
JSON document; a normal return exits the process with code 0, an uncaught
exception propagates (and would exit nonzero). -/
def hostModeRun (showObj : ShowFn) (st : IState) (host_id : PyVal) :
    Except PyError (Nat × PyVal) :=
  match get_host_info showObj st host_id with
  | (.ok d, _) => .ok (0, d)
  | (.error e, _) => .error e

/-- The pagination loop of `get_inventory`, source lines 165-171: starting
from `page`, request `index_hosts(page)`; stop and return the accumulator when
a page has fewer than one host, otherwise increment the page counter, append
the page, and continue.  The Python loop is unbounded (`while True`), so the
model takes a fuel bound; `none` means the loop has not terminated within
`fuel` iterations. -/
def collectHosts (index_hosts : Nat → List PyVal) :
    Nat → Nat → List PyVal → Option (List PyVal)
  | 0, _, _ => none
  | fuel + 1, page, hosts =>
      let resp := index_hosts page
      if resp.length < 1 then some hosts
      else collectHosts index_hosts fuel (page + 1) (hosts ++ resp)

/-- The grouping structure built by `get_inventory`: the
`collections.defaultdict(list)` mapping group labels to lists of host names. -/
abbrev Groups := List (PyVal × List PyVal)

/-- Source method `ForemanInventory.get_inventory`, lines 160-181: accumulate hosts
page by page starting at page 1; if no hosts were returned, return the (still
empty) `groups` dictionary.  Otherwise the first iteration of the per-host
loop evaluates `self._get_hostgroup_from_id`, an attribute that
`ForemanInventory` does not define, so it raises `AttributeError` (attribute
lookup happens before the argument cleanup, so no other work is observable).
The result is `none` when the pagination loop exceeds the fuel bound. -/
def get_inventory (index_hosts : Nat → List PyVal) (fuel : Nat) :
    Option (Except PyError Groups) :=
  match collectHosts index_hosts fuel 1 [] with
  | none => none
  | some hosts =>
      if hosts.length < 1 then some (.ok ([] : Groups))
      else some (.error (.attributeError "_get_hostgroup_from_id"))

/-- The configuration source: the three values of interest under the
`[foreman]` section of the ini file, each possibly absent. -/
structure IniConfig where
  base_url : Option String
  username : Option String
  password : Option String

/-- Model of `config.get('foreman', key)` from `ConfigParser`: returns the
string value, or raises `NoOptionError` when the key is absent from the
section. -/
def configGet (v : Option String) (opt : String) : Except PyError String :=
  match v with
  | some s => .ok s
  | none => .error (.noOptionError opt)

/-- Source method `ForemanInventory.read_settings`, lines 183-191: reads `base_url`,
`username` and `password` in that order via `config.get`; a missing key raises
and the exception propagates out of the method. -/
def read_settings (cfg : IniConfig) : Except PyError (String × String × String) :=
  match configGet cfg.base_url "base_url" with
  | .error e => .error e
  | .ok b =>
    match configGet cfg.username "username" with
    | .error e => .error e
    | .ok u =>
      match configGet cfg.password "password" with
      | .error e => .error e
      | .ok p => .ok (b, u, p)

/-- Outcome of the startup sequence: either the process exited with the given
code before constructing the API client, or the `Foreman` client was
constructed with the given settings (the first point at which any API
connection is attempted). -/
inductive StartupResult where
  | exited (code : Nat) : StartupResult
  | connected (base_url username password : String) : StartupResult
  deriving DecidableEq, Repr

/-- The startup prefix of `ForemanInventory.__init__`, source lines 96-116:
`read_settings` runs before the client is constructed.  An exception escaping
`read_settings` is uncaught, so Python terminates the process with exit
code 1 (printing a traceback) without reaching the client construction.  On
success the explicit `None` check of lines 110-113 cannot fire, because
`config.get` returned a string for each of the three keys, and the client is
constructed from the three settings. -/
def startup (cfg : IniConfig) : StartupResult :=
  match read_settings cfg with
  | .error _ => .exited 1
  | .ok (b, u, p) => .connected b u p

/-- A run of reference resolutions against one `ForemanInventory` instance:
execute `_get_object_from_id` for each `(type, id)` request in order,
threading the instance state; an uncaught exception terminates the process,
so the run stops at the first erroring call (keeping the mutations that call
already made). -/
def runResolves (showObj : ShowFn) : List (String × PyVal) → IState → IState
  | [], st => st
  | (t, i) :: rest, st =>
      match «_get_object_from_id» showObj st t i with
      | (.ok _, st') => runResolves showObj rest st'
      | (.error _, st') => st'

/-! ## Dictionary lemmas -/

theorem dictGet_dictSet_self {α β : Type} [DecidableEq α] (d : List (α × β)) (k : α) (v : β) :
    dictGet (dictSet d k v) k = some v := by
  induction d with
  | nil => simp [dictSet, dictGet]
  | cons hd tl ih =>
    obtain ⟨k', v'⟩ := hd
    by_cases h : k = k'
    · simp [dictSet, dictGet, h]
    · simp [dictSet, dictGet, h, ih]

theorem dictGet_dictSet_ne {α β : Type} [DecidableEq α] (d : List (α × β)) (k k' : α) (v : β)
    (h : k' ≠ k) : dictGet (dictSet d k v) k' = dictGet d k' := by
  induction d with
  | nil => simp [dictSet, dictGet, h]
  | cons hd tl ih =>
    obtain ⟨k₀, v₀⟩ := hd
    by_cases h0 : k = k₀
    · subst h0
      simp [dictSet, dictGet, h]
    · simp [dictSet, dictGet, h0, ih]

theorem dictGet_dictSet_isSome {α β : Type} [DecidableEq α] (d : List (α × β)) (k k' : α)
    (v : β) : (dictGet (dictSet d k v) k').isSome ↔ k' = k ∨ (dictGet d k').isSome := by
  by_cases h : k' = k
  · subst h
    simp [dictGet_dictSet_self]
  · rw [dictGet_dictSet_ne _ _ _ _ h]
    simp [h]

/-! ## Case analysis of the reference-resolution step -/

/-- Every call of the resolver either leaves the instance state unchanged
(`None` ID, unknown type, or cache hit), or is a cache miss with a known type:
then it returns the unwrapped `fetched.get(obj_type)`, stores the full
envelope, and logs exactly one adapter call. -/
theorem getObject_cases (showObj : ShowFn) (st : IState) (t : String) (i : PyVal) :
    («_get_object_from_id» showObj st t i).2 = st ∨
    ∃ bucket, dictGet st.cache t = some bucket ∧
      (dictGet bucket i).getD PyVal.pynone = PyVal.pynone ∧ i ≠ PyVal.pynone ∧
      «_get_object_from_id» showObj st t i =
        (pyGet (showObj t i) t,
         { cache := dictSet st.cache t (dictSet bucket i (showObj t i)),
           calls := st.calls ++ [(t, i)] }) := by
  by_cases hi : i = PyVal.pynone
  · left
    simp [«_get_object_from_id», hi]
  · cases hc : dictGet st.cache t with
    | none =>
      left
      simp [«_get_object_from_id», hi, hc]
    | some bucket =>
      by_cases ho : (dictGet bucket i).getD PyVal.pynone = PyVal.pynone
      · right
        exact ⟨bucket, rfl, ho, hi, by simp [«_get_object_from_id», hi, hc, ho]⟩
      · left
        simp [«_get_object_from_id», hi, hc, ho]

/-- A cache entry holding a genuine envelope (not `None`) survives any single
resolver call unchanged. -/
theorem cacheLookup_getObject (showObj : ShowFn) (st : IState) (t : String) (i : PyVal)
    (t' : String) (i' v : PyVal) (hv : cacheLookup st t' i' = some v)
    (hne : v ≠ PyVal.pynone) :
    cacheLookup («_get_object_from_id» showObj st t i).2 t' i' = some v := by
  rcases getObject_cases showObj st t i with h | ⟨bucket, hc, ho, hi, h⟩
  · rw [h]
    exact hv
  · rw [h]
    dsimp only
    unfold cacheLookup at hv ⊢
    dsimp only
    by_cases ht : t' = t
    · subst ht
      rw [hc] at hv
      simp only [Option.some_bind] at hv
      simp only [dictGet_dictSet_self, Option.some_bind]
      by_cases hii : i' = i
      · subst hii
        rw [hv] at ho
        simp only [Option.getD_some] at ho
        exact absurd ho hne
      · rw [dictGet_dictSet_ne _ _ _ _ hii]
        exact hv
    · simp only [dictGet_dictSet_ne _ _ _ _ ht]
      exact hv

/-- A cache entry holding a genuine envelope survives any further sequence of
resolver calls unchanged: the cache is write-once per key. -/
theorem runResolves_cacheLookup (showObj : ShowFn) (reqs : List (String × PyVal))
    (st : IState) (t : String) (i v : PyVal) (hv : cacheLookup st t i = some v)
    (hne : v ≠ PyVal.pynone) :
    cacheLookup (runResolves showObj reqs st) t i = some v := by
  induction reqs generalizing st with
  | nil => exact hv
  | cons hd rest ih =>
    obtain ⟨t', i'⟩ := hd
    have hpres := cacheLookup_getObject showObj st t' i' t i v hv hne
    simp only [runResolves]
    cases hr : «_get_object_from_id» showObj st t' i' with
    | mk res st' =>
      rw [hr] at hpres
      cases res with
      | ok w => exact ih st' hpres
      | error e => exact hpres

/-- An ok result of Python `x.get(key)` means `x` was a dictionary, so in
particular not `None`. -/
theorem pyGet_ok_ne_pynone (x : PyVal) (key : String) (v : PyVal)
    (h : pyGet x key = .ok v) : x ≠ PyVal.pynone := by
  intro hx
  subst hx
  simp [pyGet] at h

/-- Run invariant for the adapter-call log: the logged pairs are pairwise
distinct, and every logged pair is present in the cache with a genuine
(non-`None`) envelope, so it can never be fetched again. -/
def CallInv (st : IState) : Prop :=
  st.calls.Nodup ∧
  ∀ p ∈ st.calls, ∃ v, cacheLookup st p.1 p.2 = some v ∧ v ≠ PyVal.pynone

/-- The call log of any resolution run starting from a state satisfying the
invariant has no duplicated `(type, id)` pair: each pair is fetched from the
adapter at most once. -/
theorem runResolves_nodup (showObj : ShowFn) (reqs : List (String × PyVal))
    (st : IState) (hInv : CallInv st) :
    (runResolves showObj reqs st).calls.Nodup := by
  induction reqs generalizing st with
  | nil => exact hInv.1
  | cons hd rest ih =>
    obtain ⟨t, i⟩ := hd
    rcases getObject_cases showObj st t i with hst | ⟨bucket, hc, ho, hi, hpair⟩
    · simp only [runResolves]
      cases hr : «_get_object_from_id» showObj st t i with
      | mk res st' =>
        rw [hr] at hst
        cases res with
        | ok w =>
          subst hst
          exact ih _ hInv
        | error e =>
          subst hst
          exact hInv.1
    · have hnotin : (t, i) ∉ st.calls := by
        intro hmem
        obtain ⟨v, hv, hvne⟩ := hInv.2 (t, i) hmem
        unfold cacheLookup at hv
        rw [hc] at hv
        simp only [Option.some_bind] at hv
        rw [hv] at ho
        simp only [Option.getD_some] at ho
        exact hvne ho
      have hnodup : (st.calls ++ [(t, i)]).Nodup := by
        rw [List.nodup_append]
        exact ⟨hInv.1, List.nodup_singleton _, by
          intro a ha hb
          simp only [List.mem_singleton] at hb
          subst hb
          exact hnotin ha⟩
      simp only [runResolves]
      cases hr : «_get_object_from_id» showObj st t i with
      | mk res st' =>
        rw [hr] at hpair
        have hst' : st' = { cache := dictSet st.cache t (dictSet bucket i (showObj t i)),
                            calls := st.calls ++ [(t, i)] } :=
          congrArg Prod.snd hpair
        cases res with
        | error e =>
          rw [hst']
          exact hnodup
        | ok w =>
          have hres : pyGet (showObj t i) t = .ok w := (congrArg Prod.fst hpair).symm
          have hfetched := pyGet_ok_ne_pynone (showObj t i) t w hres
          refine ih st' ⟨by rw [hst']; exact hnodup, ?_⟩
          intro p hp
          rw [hst'] at hp
          simp only [List.mem_append, List.mem_singleton] at hp
          rcases hp with hp | hp
          · obtain ⟨v, hv, hvne⟩ := hInv.2 p hp
            refine ⟨v, ?_, hvne⟩
            have := cacheLookup_getObject showObj st t i p.1 p.2 v hv hvne
            rw [hr] at this
            exact this
          · subst hp
            refine ⟨showObj t i, ?_, hfetched⟩
            rw [hst']
            unfold cacheLookup
            simp only [dictGet_dictSet_self, Option.some_bind]

/-- Claim C5: across any sequence of resolve calls within one run, the cache
makes at most one adapter show call per distinct (type, id) pair (the call log
from the initial state has no duplicate pair), and a stored envelope is never
re-fetched or overwritten (a cache entry holding a genuine envelope survives
any further resolve sequence unchanged). -/
theorem resolve_cache_write_once (showObj : ShowFn) (reqs : List (String × PyVal)) :
    (runResolves showObj reqs initState).calls.Nodup ∧
    ∀ (st : IState) (t : String) (i v : PyVal),
      cacheLookup st t i = some v → v ≠ PyVal.pynone →
      cacheLookup (runResolves showObj reqs st) t i = some v :=
  ⟨runResolves_nodup showObj reqs initState ⟨List.nodup_nil, by simp [initState]⟩,
   fun st t i v hv hne => runResolves_cacheLookup showObj reqs st t i v hv hne⟩

/-- A sample adapter whose show operation returns an envelope wrapping a named
record under the requested reference type. -/
def showW : ShowFn := fun t _ =>
  PyVal.pydcons t (PyVal.pydcons "name" (PyVal.pystr "X") PyVal.pydnil) PyVal.pydnil

/-- A sample hostgroup response envelope. -/
def envW : PyVal :=
  PyVal.pydcons "hostgroup" (PyVal.pydcons "label" (PyVal.pystr "web") PyVal.pydnil)
    PyVal.pydnil

/-- A sample resolve-request sequence with a repeated pair. -/
def reqsW : List (String × PyVal) :=
  [("hostgroup", PyVal.pyint 1), ("hostgroup", PyVal.pyint 1), ("domain", PyVal.pyint 2)]

/-- A sample state whose hostgroup bucket already holds an envelope for ID 1. -/
def stW : IState :=
  { cache := [("hostgroup", [(PyVal.pyint 1, envW)])], calls := [] }

/-- Witness for claim C5 at a concrete adapter, request list and state. -/
theorem resolve_cache_write_once_witness :
    (runResolves showW reqsW initState).calls.Nodup ∧
    cacheLookup (runResolves showW reqsW stW) "hostgroup" (PyVal.pyint 1) = some envW :=
  ⟨(resolve_cache_write_once showW reqsW).1,
   (resolve_cache_write_once showW reqsW).2 stW "hostgroup" (PyVal.pyint 1) envW
     (by decide) (by decide)⟩

/-! ## Domain of the cache: the nine pre-initialized reference types -/

/-- A single resolver call never adds or removes an outer cache key: the set
of reference-type names with a bucket is invariant. -/
theorem getObject_cache_isSome (showObj : ShowFn) (st : IState) (t : String) (i : PyVal)
    (t' : String) :
    (dictGet («_get_object_from_id» showObj st t i).2.cache t').isSome ↔
      (dictGet st.cache t').isSome := by
  rcases getObject_cases showObj st t i with h | ⟨bucket, hc, ho, hi, h⟩
  · rw [h]
  · rw [h]
    dsimp only
    by_cases ht : t' = t
    · subst ht
      simp [dictGet_dictSet_self, hc]
    · rw [dictGet_dictSet_ne _ _ _ _ ht]

/-- The set of reference-type names with a bucket is invariant under any
resolution run. -/
theorem runResolves_cache_isSome (showObj : ShowFn) (reqs : List (String × PyVal))
    (st : IState) (t' : String) :
    (dictGet (runResolves showObj reqs st).cache t').isSome ↔
      (dictGet st.cache t').isSome := by
  induction reqs generalizing st with
  | nil => exact Iff.rfl
  | cons hd rest ih =>
    obtain ⟨t, i⟩ := hd
    have hstep := getObject_cache_isSome showObj st t i t'
    simp only [runResolves]
    cases hr : «_get_object_from_id» showObj st t i with
    | mk res st' =>
      rw [hr] at hstep
      cases res with
      | ok w => exact (ih st').trans hstep
      | error e => exact hstep

/-- A bucket exists in the initial cache exactly for the names of the
pre-initialized key list. -/
theorem dictGet_empty_cache_isSome (t : String) :
    (dictGet «_empty_cache» t).isSome ↔ t ∈ cacheTypeKeys := by
  have h : ∀ l : List String,
      (dictGet (l.map (fun k => (k, ([] : Bucket)))) t).isSome ↔ t ∈ l := by
    intro l
    induction l with
    | nil => simp [dictGet]
    | cons k rest ih =>
      by_cases hk : t = k
      · subst hk
        simp [dictGet]
      · simp [dictGet, hk, ih]
  exact h cacheTypeKeys

/-- Claim C10: after any resolution run from a fresh instance, resolving a
type name outside the nine pre-initialized reference types with a non-null ID
raises `AttributeError` on the missing cache bucket, leaving the state (in
particular the adapter-call log) unchanged, while each of the nine known
names always has a bucket. -/
theorem getObject_domain (showObj : ShowFn) (reqs : List (String × PyVal)) :
    (∀ t, t ∉ cacheTypeKeys → ∀ i, i ≠ PyVal.pynone →
      «_get_object_from_id» showObj (runResolves showObj reqs initState) t i =
        (.error (.attributeError "get"), runResolves showObj reqs initState)) ∧
    (∀ t ∈ cacheTypeKeys,
      (dictGet (runResolves showObj reqs initState).cache t).isSome) := by
  have hdom : ∀ t, (dictGet (runResolves showObj reqs initState).cache t).isSome ↔
      t ∈ cacheTypeKeys := by
    intro t
    rw [runResolves_cache_isSome]
    show (dictGet initState.cache t).isSome ↔ t ∈ cacheTypeKeys
    exact dictGet_empty_cache_isSome t
  constructor
  · intro t ht i hi
    have hnone : dictGet (runResolves showObj reqs initState).cache t = none := by
      rw [← Option.not_isSome_iff_eq_none]
      intro hs
      exact ht ((hdom t).mp hs)
    simp [«_get_object_from_id», hi, hnone]
  · intro t ht
    exact (hdom t).mpr ht

/-- Witness for claim C10: the type name owner is not pre-initialized, so its
resolution fails without a call; the hostgroup bucket exists. -/
theorem getObject_domain_witness :
    «_get_object_from_id» showW (runResolves showW [] initState) "owner" (PyVal.pyint 3) =
      (.error (.attributeError "get"), runResolves showW [] initState) ∧
    (dictGet (runResolves showW [] initState).cache "hostgroup").isSome :=
  ⟨(getObject_domain showW []).1 "owner" (by decide) (PyVal.pyint 3) (by decide),
   (getObject_domain showW []).2 "hostgroup" (by decide)⟩

/-! ## The cache-miss path: full envelope stored, unwrapped field returned -/

/-- Claim C6 (amended): a resolve call with a non-null ID for a known type
whose pair is not yet cached invokes the adapter show operation (the pair is
appended to the call log), stores the full response envelope in the cache
under the pair, and returns the field of the envelope named by the reference
type, that is `envelope.get(obj_type)`, not the envelope itself. -/
theorem getObject_miss (showObj : ShowFn) (st : IState) (t : String) (i : PyVal)
    (bucket : Bucket) (hi : i ≠ PyVal.pynone) (hb : dictGet st.cache t = some bucket)
    (hmiss : (dictGet bucket i).getD PyVal.pynone = PyVal.pynone) :
    «_get_object_from_id» showObj st t i =
      (pyGet (showObj t i) t,
       { cache := dictSet st.cache t (dictSet bucket i (showObj t i)),
         calls := st.calls ++ [(t, i)] }) ∧
    cacheLookup («_get_object_from_id» showObj st t i).2 t i = some (showObj t i) := by
  have h1 : «_get_object_from_id» showObj st t i =
      (pyGet (showObj t i) t,
       { cache := dictSet st.cache t (dictSet bucket i (showObj t i)),
         calls := st.calls ++ [(t, i)] }) := by
    simp [«_get_object_from_id», hi, hb, hmiss]
  refine ⟨h1, ?_⟩
  rw [h1]
  unfold cacheLookup
  simp only [dictGet_dictSet_self, Option.some_bind]

/-- A sample adapter whose hostgroup envelope carries an extra field next to
the wrapped record, to tell the envelope apart from the unwrapped field. -/
def showC6 : ShowFn := fun _ _ =>
  PyVal.pydcons "hostgroup" (PyVal.pystr "rec")
    (PyVal.pydcons "extra" (PyVal.pyint 7) PyVal.pydnil)

/-- Counterexample to claim C6 as stated: on an uncached pair the resolver
stores the full response envelope but returns the unwrapped field, which
differs from the full response. -/
theorem getObject_returns_unwrapped :
    («_get_object_from_id» showC6 initState "hostgroup" (PyVal.pyint 1)).1 =
      .ok (PyVal.pystr "rec") ∧
    cacheLookup («_get_object_from_id» showC6 initState "hostgroup" (PyVal.pyint 1)).2
      "hostgroup" (PyVal.pyint 1) = some (showC6 "hostgroup" (PyVal.pyint 1)) ∧
    PyVal.pystr "rec" ≠ showC6 "hostgroup" (PyVal.pyint 1) :=
  ⟨rfl, by decide, by decide⟩

/-- Witness for claim C6 (amended) at a concrete adapter, state and pair. -/
theorem getObject_miss_witness :
    «_get_object_from_id» showC6 initState "domain" (PyVal.pyint 4) =
      (pyGet (showC6 "domain" (PyVal.pyint 4)) "domain",
       { cache := dictSet initState.cache "domain"
           (dictSet ([] : Bucket) (PyVal.pyint 4) (showC6 "domain" (PyVal.pyint 4))),
         calls := initState.calls ++ [("domain", PyVal.pyint 4)] }) ∧
    cacheLookup («_get_object_from_id» showC6 initState "domain" (PyVal.pyint 4)).2
      "domain" (PyVal.pyint 4) = some (showC6 "domain" (PyVal.pyint 4)) :=
  getObject_miss showC6 initState "domain" (PyVal.pyint 4) ([] : Bucket)
    (by decide) (by decide) (by decide)

/-! ## Pagination -/

/-- Generalized pagination loop specification: if page `k` is the first empty
page at or after the current page `p`, and the fuel covers the remaining
pages, the loop returns the accumulator followed by the concatenation of
pages `p` to `k - 1` in order. -/
theorem collectHosts_firstEmpty (pages : Nat → List PyVal) (k : Nat) :
    ∀ (fuel p : Nat) (acc : List PyVal), p ≤ k → k < p + fuel →
      (∀ i, p ≤ i → i < k → pages i ≠ []) → pages k = [] →
      collectHosts pages fuel p acc =
        some (acc ++ (List.range' p (k - p)).flatMap pages) := by
  intro fuel
  induction fuel with
  | zero =>
    intro p acc hp hk hne hk0
    exfalso
    omega
  | succ fuel ih =>
    intro p acc hp hk hne hk0
    by_cases hpk : p = k
    · subst hpk
      simp [collectHosts, hk0]
    · have hplt : p < k := lt_of_le_of_ne hp hpk
      have hne0 : pages p ≠ [] := hne p le_rfl hplt
      have hlen : ¬ (pages p).length < 1 := by
        cases hpp : pages p with
        | nil => exact absurd hpp hne0
        | cons a l => simp
      rw [collectHosts]
      simp only [hlen, if_false]
      rw [ih (p + 1) (acc ++ pages p) (by omega) (by omega)
        (fun i h1 h2 => hne i (by omega) h2) hk0]
      have hkp : k - p = (k - (p + 1)) + 1 := by omega
      rw [hkp, List.range'_succ, List.flatMap_cons, List.append_assoc]

/-- Claim C4: the pagination loop starts at page 1, accumulates each
non-empty page in order, and terminates at the first page yielding zero
hosts, returning the concatenation of all prior non-empty pages; and when
page 1 is already empty, `get_inventory` returns the empty grouping
structure. -/
theorem pagination_concat (pages : Nat → List PyVal) (k fuel : Nat) (hk : 1 ≤ k)
    (hempty : pages k = []) (hne : ∀ i, 1 ≤ i → i < k → pages i ≠ [])
    (hfuel : k ≤ fuel) :
    collectHosts pages fuel 1 [] = some ((List.range' 1 (k - 1)).flatMap pages) ∧
    (pages 1 = [] → get_inventory pages fuel = some (.ok ([] : Groups))) := by
  have h1 := collectHosts_firstEmpty pages k fuel 1 [] hk (by omega)
    (fun i ha hb => hne i ha hb) hempty
  constructor
  · simpa using h1
  · intro h10
    have hk1 : k = 1 := by
      by_contra hkk
      exact hne 1 le_rfl (by omega) h10
    subst hk1
    simp only [Nat.sub_self, List.range'_zero, List.flatMap_nil, List.nil_append] at h1
    unfold get_inventory
    rw [h1]
    simp

/-- A sample two-page fleet for the pagination witness. -/
def pagesW : Nat → List PyVal := fun page =>
  if page = 1 then [PyVal.pystr "a"]
  else if page = 2 then [PyVal.pystr "b"]
  else []

/-- Witness for claim C4 at a concrete page sequence whose first empty page
is page 3. -/
theorem pagination_concat_witness :
    collectHosts pagesW 3 1 [] = some ((List.range' 1 2).flatMap pagesW) ∧
    (pagesW 1 = [] → get_inventory pagesW 3 = some (.ok ([] : Groups))) :=
  pagination_concat pagesW 3 3 (by decide) (by decide)
    (fun i h1 h2 => by interval_cases i <;> simp [pagesW]) (by decide)

/-! ## Single-host mode and startup -/

/-- Claim C7: when the resolution of the host identifier yields no host
object, `get_host_info` returns the empty record rather than raising, and the
host-mode run prints it and exits with code zero. -/
theorem host_mode_absent_host (showObj : ShowFn) (st : IState) (host_id : PyVal)
    (h : («_get_object_from_id» showObj st "host" host_id).1 = .ok PyVal.pynone) :
    hostModeRun showObj st host_id = .ok (0, PyVal.pydnil) := by
  simp [hostModeRun, get_host_info, h]

/-- A sample adapter whose host responses lack the host field, so that host
resolution yields no host object. -/
def showC7 : ShowFn := fun _ _ => PyVal.pydnil

/-- Witness for claim C7 at a concrete adapter and unknown host identifier. -/
theorem host_mode_absent_host_witness :
    hostModeRun showC7 initState (PyVal.pystr "ghost") = .ok (0, PyVal.pydnil) :=
  host_mode_absent_host showC7 initState (PyVal.pystr "ghost") rfl

/-- Claim C8: a configuration source in which any of the three required
settings (base_url, username or password) is absent — in particular a missing
username — makes the startup sequence terminate with exit code 1 before the
API client is constructed (so before any API call is attempted). -/
theorem startup_missing_setting (cfg : IniConfig)
    (h : cfg.base_url = none ∨ cfg.username = none ∨ cfg.password = none) :
    startup cfg = .exited 1 := by
  rcases h with h | h | h
  · simp [startup, read_settings, configGet, h]
  · cases hb : cfg.base_url <;>
      simp [startup, read_settings, configGet, hb, h]
  · cases hb : cfg.base_url <;> cases hu : cfg.username <;>
      simp [startup, read_settings, configGet, hb, hu, h]

/-- A sample configuration with only the username key absent. -/
def cfgW : IniConfig :=
  { base_url := some "https://foreman.example.com", username := none,
    password := some "secret" }

/-- A sample configuration with only the base_url key absent. -/
def cfgB : IniConfig :=
  { base_url := none, username := some "admin",
    password := some "secret" }

/-- A sample configuration with only the password key absent. -/
def cfgP : IniConfig :=
  { base_url := some "https://foreman.example.com", username := some "admin",
    password := none }

/-- Witness for claim C8 at three concrete configurations, each missing
exactly one of the three required settings. -/
theorem startup_missing_setting_witness :
    startup cfgW = .exited 1 ∧ startup cfgB = .exited 1 ∧ startup cfgP = .exited 1 :=
  ⟨startup_missing_setting cfgW (Or.inr (Or.inl rfl)),
   startup_missing_setting cfgB (Or.inl rfl),
   startup_missing_setting cfgP (Or.inr (Or.inr rfl))⟩

/-! ## Concrete evaluations exhibiting the code bugs -/

/-- A sample host record envelope as returned inside an `index_hosts` page. -/
def hostRec (n : String) (hg : PyVal) : PyVal :=
  PyVal.pydcons "host"
    (PyVal.pydcons "name" (PyVal.pystr n)
      (PyVal.pydcons "hostgroup_id" hg PyVal.pydnil)) PyVal.pydnil

/-- The fleet of claim C1: hosts a and b in hostgroup 1, host c without a
hostgroup, all on page 1; page 2 is empty. -/
def pagesC1 : Nat → List PyVal := fun page =>
  if page = 1 then
    [hostRec "a" (PyVal.pyint 1), hostRec "b" (PyVal.pyint 1), hostRec "c" PyVal.pynone]
  else []

/-- Claim C1 evaluation: on the three-host fleet, list mode does not return a
grouping; the per-host loop raises `AttributeError` because `ForemanInventory`
defines no method named by the source call at line 177. -/
theorem get_inventory_crashes_on_hosts :
    get_inventory pagesC1 2 =
      some (.error (.attributeError "_get_hostgroup_from_id")) := rfl

/-- Claim C2 evaluation: on the empty fleet, list mode returns the empty
grouping dictionary, which has no meta key at all, even though the value
built by the empty-inventory helper (assigned to the unused instance field)
does carry the meta-hostvars entry. -/
theorem get_inventory_no_meta :
    get_inventory (fun _ => []) 1 = some (.ok ([] : Groups)) ∧
    dictGet ([] : Groups) (PyVal.pystr "_meta") = none ∧
    pyGet «_empty_inventory» "_meta" =
      .ok (PyVal.pydcons "hostvars" PyVal.pydnil PyVal.pydnil) :=
  ⟨rfl, rfl, rfl⟩

/-- A sample host record whose foreign-key IDs are all absent. -/
def metaC3 : PyVal :=
  PyVal.pydcons "id" (PyVal.pyint 5)
    (PyVal.pydcons "ip" (PyVal.pystr "10.0.0.1")
      (PyVal.pydcons "name" (PyVal.pystr "h")
        (PyVal.pydcons "environment"
          (PyVal.pydcons "environment"
            (PyVal.pydcons "name" (PyVal.pystr "dev") PyVal.pydnil) PyVal.pydnil)
          PyVal.pydnil)))

/-- A sample adapter returning the record above for host lookups. -/
def showC3 : ShowFn := fun t _ =>
  if t = "host" then PyVal.pydcons "host" metaC3 PyVal.pydnil else PyVal.pydnil

/-- Claim C3 evaluation: even with every foreign-key ID absent, the per-field
resolver raises `UnboundLocalError` instead of returning a null field, so
`get_host_info` raises on such a host rather than producing a record. -/
theorem get_host_info_raises_on_null_fk :
    «_get_from_id» "operatingsystem" PyVal.pynone =
      .error (.unboundLocalError "param") ∧
    (get_host_info showC3 initState (PyVal.pystr "h")).1 =
      .error (.unboundLocalError "param") :=
  ⟨rfl, rfl⟩

/-- A sample host record with environment label Production and an operating
system reference present. -/
def metaC9 : PyVal :=
  PyVal.pydcons "id" (PyVal.pyint 6)
    (PyVal.pydcons "ip" (PyVal.pystr "10.0.0.2")
      (PyVal.pydcons "name" (PyVal.pystr "p1")
        (PyVal.pydcons "environment"
          (PyVal.pydcons "environment"
            (PyVal.pydcons "name" (PyVal.pystr "Production") PyVal.pydnil) PyVal.pydnil)
          (PyVal.pydcons "operatingsystem_id" (PyVal.pyint 2) PyVal.pydnil))))

/-- A sample adapter returning the record above for host lookups. -/
def showC9 : ShowFn := fun t _ =>
  if t = "host" then PyVal.pydcons "host" metaC9 PyVal.pydnil else PyVal.pydnil

/-- Claim C9 evaluation: the environment expression of the host record does
lowercase the label (Production becomes production), but `get_host_info`
raises `UnboundLocalError` while building the very record that would carry
it, so no single-host output with an environment field is ever produced. -/
theorem env_lowercased_but_unreachable :
    envField metaC9 = .ok (PyVal.pystr "production") ∧
    (get_host_info showC9 initState (PyVal.pystr "p1")).1 =
      .error (.unboundLocalError "param") :=
  ⟨rfl, rfl⟩

end Foreman
